import Mathlib

/-!
Verification of core components of the projectM preset engine against its
natural-language specification.  The development shallowly embeds, in Lean,
the data structures and operations of:

* the asynchronous preset-switch state machine
  (`PresetSwitchState.hpp`, `PresetSwitchContext.hpp`, `PresetCpuWorker.cpp`),
* the Milkdrop preset render/compile operations (`MilkdropPreset.cpp`),
* the shader wrapper's asynchronous compile state machine (`Shader.cpp`),
* the cross-platform GL procedure resolver (`GLResolver.cpp`),

and proves (or refutes) the specified properties about these embeddings.
External collaborators (file system, GL driver, expression compiler) are
modelled as explicit oracle parameters; machine pointers are modelled as
natural numbers where 0 plays the role of the null pointer.
-/

set_option maxRecDepth 4000

namespace ProjectM

/-! ## Preset switch state machine (PresetSwitchState.hpp) -/

/-- States of a single preset switch operation, mirroring the C++ enum
`PresetSwitchState` (Idle, CpuLoading, GlStaging, ExpressionCompiling,
GlPhases, Activating, Completed, Failed). -/
inductive PresetSwitchState where
  | Idle
  | CpuLoading
  | GlStaging
  | ExpressionCompiling
  | GlPhases
  | Activating
  | Completed
  | Failed
deriving DecidableEq, Repr

/-- Numeric rank of a switch state, following the declaration order of the
C++ enum.  `Failed` ranks above every other state, so every legal transition
(forward moves and failure) increases the rank. -/
def PresetSwitchState.rank : PresetSwitchState → Nat
  | .Idle => 0
  | .CpuLoading => 1
  | .GlStaging => 2
  | .ExpressionCompiling => 3
  | .GlPhases => 4
  | .Activating => 5
  | .Completed => 6
  | .Failed => 7

/-- Successor of a state along the nominal (non-failure) progression
Idle -> CpuLoading -> GlStaging -> ExpressionCompiling -> GlPhases ->
Activating -> Completed. -/
def PresetSwitchState.next : PresetSwitchState → Option PresetSwitchState
  | .Idle => some .CpuLoading
  | .CpuLoading => some .GlStaging
  | .GlStaging => some .ExpressionCompiling
  | .ExpressionCompiling => some .GlPhases
  | .GlPhases => some .Activating
  | .Activating => some .Completed
  | .Completed => none
  | .Failed => none

/-- Mirror of the C++ `PresetSwitchContext` record (PresetSwitchContext.hpp),
restricted to the fields the CPU worker and the orchestrator read or write:
the atomic state, the target path, the staged file bytes, the error message
and the expressions-compiled flag.  The atomic `cancelled` flag is modelled
per operation as the sequence of values observed at each checkpoint. -/
structure SwitchCtx where
  state : PresetSwitchState
  path : String
  fileData : List Nat
  errorMessage : String
  expressionsCompiled : Bool
deriving DecidableEq, Repr

/-- Outcome of opening, sizing and reading one local file, modelling the
`std::ifstream` interactions in `PresetCpuWorker::DoFileRead`: whether the
open succeeded (`file.good()`), the value of `tellg()` after seeking to the
end, whether the read left the stream without fail/bad bits, and the bytes
the read produced. -/
structure FileModel where
  openOk : Bool
  size : Int
  readOk : Bool
  bytes : List Nat

/-- Error message built by `DoFileRead` when the file cannot be opened. -/
def cannotOpenMessage (resolvedPath : String) : String :=
  "Could not open preset file: \"" ++ resolvedPath ++ "\"."

/-- Error message built by `DoFileRead` when the file size is out of range. -/
def invalidSizeMessage (resolvedPath : String) : String :=
  "Preset file has invalid size: \"" ++ resolvedPath ++ "\"."

/-- Error message built by `DoFileRead` when the read fails. -/
def failedReadMessage (resolvedPath : String) : String :=
  "Failed to read preset file: \"" ++ resolvedPath ++ "\"."

/-- Embedding of `PresetCpuWorker::DoFileRead` (PresetCpuWorker.cpp, lines
69-142).  `c0`, `c1`, `c2` are the values of the atomic `cancelled` flag
observed at the three checkpoints (before start, after protocol resolution,
before storing the data).  `protocol` and `resolvedPath` are the results of
the external `PresetFactory::Protocol` call, and `fs` models the file the
resolved path denotes. -/
def doFileRead (c0 c1 c2 : Bool) (protocol resolvedPath : String)
    (fs : FileModel) (ctx : SwitchCtx) : SwitchCtx :=
  if c0 then ctx
  else if protocol ≠ "" ∧ protocol ≠ "file" then
    { ctx with state := .GlStaging }
  else if c1 then ctx
  else if ¬fs.openOk then
    { ctx with errorMessage := cannotOpenMessage resolvedPath, state := .Failed }
  else if fs.size ≤ 0 ∨ fs.size > 0x100000 then
    { ctx with errorMessage := invalidSizeMessage resolvedPath, state := .Failed }
  else if ¬fs.readOk then
    { ctx with errorMessage := failedReadMessage resolvedPath, state := .Failed }
  else if c2 then ctx
  else
    { ctx with fileData := fs.bytes, state := .GlStaging }

/-- Embedding of `PresetCpuWorker::DoExpressionCompile` (PresetCpuWorker.cpp,
lines 19-67).  `c0`, `c1`, `c2` are the `cancelled` values observed at the
three checkpoints; `hasPreset` models `ctx->preset != nullptr`; `compileErr`
and `preloadErr` are the error messages of exceptions thrown by the external
`CompileExpressions` / `PreloadTextures` calls (`none` meaning success, with
`preloadErr` forced to `none` when no texture manager is attached). -/
def doExpressionCompile (c0 c1 c2 : Bool) (hasPreset : Bool)
    (compileErr preloadErr : Option String) (ctx : SwitchCtx) : SwitchCtx :=
  if c0 then ctx
  else if hasPreset then
    match compileErr with
    | some e => { ctx with errorMessage := e, state := .Failed }
    | none =>
      if c1 then ctx
      else
        match preloadErr with
        | some e => { ctx with errorMessage := e, state := .Failed }
        | none =>
          if c2 then ctx
          else { ctx with expressionsCompiled := true, state := .GlPhases }
  else { ctx with state := .GlPhases }

/-- Modelled from the spec: the preset switch orchestrator (its source file is
not part of the provided tree; spec §4.5).  `RequestSwitch` constructs a fresh
context and hands it to the CPU worker, which begins the file read; the
context leaves `Idle` for `CpuLoading`. -/
def requestSwitchStep (ctx : SwitchCtx) : SwitchCtx :=
  { ctx with state := .CpuLoading }

/-- Modelled from the spec: the preset switch orchestrator (missing from the
provided tree; spec §4.5).  On `GlStaging` the render thread constructs the
preset from the staged bytes and submits expression compilation, advancing to
`ExpressionCompiling`; a construction failure moves the context to `Failed`. -/
def stageGlStep (constructOk : Bool) (err : String) (ctx : SwitchCtx) : SwitchCtx :=
  if constructOk then { ctx with state := .ExpressionCompiling }
  else { ctx with errorMessage := err, state := .Failed }

/-- Modelled from the spec: the preset switch orchestrator (missing from the
provided tree; spec §4.5).  Once all GL initialization phases are complete the
context advances from `GlPhases` to `Activating`. -/
def glPhasesStep (ctx : SwitchCtx) : SwitchCtx :=
  { ctx with state := .Activating }

/-- Modelled from the spec: the preset switch orchestrator (missing from the
provided tree; spec §4.5).  `Activating` atomically replaces the active preset
and advances to `Completed`. -/
def activateStep (ctx : SwitchCtx) : SwitchCtx :=
  { ctx with state := .Completed }

/-- Modelled from the spec: the preset switch orchestrator (missing from the
provided tree; spec §4.5 and §7).  A failure observed at any point before
completion moves the context to `Failed` with an error message. -/
def failStep (err : String) (ctx : SwitchCtx) : SwitchCtx :=
  { ctx with errorMessage := err, state := .Failed }

/-- One step of the preset-switch state machine: the CPU worker routines are
the embeddings of the code in PresetCpuWorker.cpp, scheduled on a context in
the state from which the spec's orchestrator (§4.5) runs them; the render
thread steps are modelled from the spec. -/
inductive SwitchStep : SwitchCtx → SwitchCtx → Prop where
  | request {c : SwitchCtx} :
      c.state = .Idle → SwitchStep c (requestSwitchStep c)
  | fileRead {c : SwitchCtx} (c0 c1 c2 : Bool) (protocol resolvedPath : String)
      (fs : FileModel) :
      c.state = .CpuLoading →
      SwitchStep c (doFileRead c0 c1 c2 protocol resolvedPath fs c)
  | stageGl {c : SwitchCtx} (constructOk : Bool) (err : String) :
      c.state = .GlStaging → SwitchStep c (stageGlStep constructOk err c)
  | exprCompile {c : SwitchCtx} (c0 c1 c2 hasPreset : Bool)
      (compileErr preloadErr : Option String) :
      c.state = .ExpressionCompiling →
      SwitchStep c (doExpressionCompile c0 c1 c2 hasPreset compileErr preloadErr c)
  | glPhases {c : SwitchCtx} :
      c.state = .GlPhases → SwitchStep c (glPhasesStep c)
  | activate {c : SwitchCtx} :
      c.state = .Activating → SwitchStep c (activateStep c)
  | fail {c : SwitchCtx} (err : String) :
      c.state ≠ .Completed → c.state ≠ .Failed → SwitchStep c (failStep err c)

/-! ## Milkdrop preset (MilkdropPreset.cpp) -/

/-- Per-frame expression context restricted to the variables that
`MilkdropPreset::PerFrameUpdate` clamps after running the per-frame code;
numeric values are modelled as rationals. -/
structure PerFrameContext where
  gamma : ℚ
  echo_zoom : ℚ
deriving DecidableEq, Repr

/-- Embedding of the clamping step of `MilkdropPreset::PerFrameUpdate`
(MilkdropPreset.cpp, lines 324-336): whatever values the per-frame expression
code left in the context, gamma becomes `max(0.0, min(8.0, gamma))` and
echo_zoom becomes `max(0.001, min(1000.0, echo_zoom))`. -/
def perFrameUpdate (ctx : PerFrameContext) : PerFrameContext :=
  { ctx with
    gamma := max 0 (min 8 ctx.gamma),
    echo_zoom := max (1 / 1000) (min 1000 ctx.echo_zoom) }

/-- Unit of CPU work performed by `MilkdropPreset::CompileExpressions`: the
HLSL-to-GLSL transpile (`TranspileShaders`) or the expression bytecode
compilation plus init-expression evaluation
(`CompileCodeAndRunInitExpressions`).  The bodies of both are external
collaborators; the embedding records each call the method issues. -/
inductive CompileWork where
  | transpile
  | compileCodeAndRunInit
deriving DecidableEq, Repr

/-- Compilation-related state of a `MilkdropPreset`: the two guard flags
`m_shadersTranspiled` and `m_expressionsCompiled`, and the log of work calls
issued so far. -/
structure PresetCompileState where
  shadersTranspiled : Bool
  expressionsCompiled : Bool
  trace : List CompileWork
deriving DecidableEq, Repr

/-- Embedding of `MilkdropPreset::CompileExpressions` (MilkdropPreset.cpp,
lines 60-78): transpile the shaders unless `m_shadersTranspiled` is already
set, then unconditionally call `CompileCodeAndRunInitExpressions` and set
`m_expressionsCompiled`. -/
def compileExpressions (p : PresetCompileState) : PresetCompileState :=
  let p1 :=
    if ¬p.shadersTranspiled then
      { p with trace := p.trace ++ [.transpile], shadersTranspiled := true }
    else p
  { p1 with trace := p1.trace ++ [.compileCodeAndRunInit], expressionsCompiled := true }

/-- Texture objects touched by `MilkdropPreset::RenderFrame`: the color
attachment textures of the two ping-pong framebuffers (created at index 0 by
`InitializePreset`), the motion-vector UV map and the flip texture. -/
inductive TexObj where
  | colorBuffer (fb : Fin 2)
  | uvMap
  | flipTex
deriving DecidableEq, Repr

/-- Symbolic images held by texture objects during `RenderFrame`.  Each draw
call produces a new image term from the images it samples, so two images are
equal only when they were produced by the same sequence of draws. -/
inductive Img where
  | initImage (n : Nat)
  | uvContent
  | motion (i : Img)
  | flip (i : Img)
  | warp (main : Img)
  | overlays (i : Img)
  | composite (main : Img)
deriving DecidableEq, Repr

/-- Replaces the texture attached to one framebuffer slot, modelling
`Framebuffer::SetAttachment` / `RemoveColorAttachment`. -/
def setAttachment (att : Fin 2 → Nat → Option TexObj) (fb : Fin 2) (slot : Nat)
    (t : Option TexObj) : Fin 2 → Nat → Option TexObj :=
  fun f s => if f = fb ∧ s = slot then t else att f s

/-- Replaces the image held by one texture object (the effect of a draw call
rendering into that texture). -/
def setContent (content : TexObj → Img) (t : TexObj) (i : Img) : TexObj → Img :=
  fun u => if u = t then i else content u

/-- Rendering state of a `MilkdropPreset` as seen by `RenderFrame`: the
framebuffer attachment table, the image held by each texture object, the
ping-pong indices, the logical main texture, and the first-frame flag.  The
fields `warpSlot1`, `warpOutput` and `blurSource` record, for the last
executed frame, the slot-1 attachment present during the warp-mesh draw, the
image that draw produced, and the image passed to `BlurTexture::Update`. -/
structure RenderState where
  attachments : Fin 2 → Nat → Option TexObj
  content : TexObj → Img
  current : Fin 2
  previous : Fin 2
  mainTexture : Option TexObj
  isFirstFrame : Bool
  perFrame : PerFrameContext
  warpSlot1 : Option TexObj
  warpOutput : Img
  blurSource : Option Img

/-- Embedding of `MilkdropPreset::RenderFrame` (MilkdropPreset.cpp, lines
212-300).  `resized` models the return value of `Framebuffer::SetSize`;
`hasCompositeShader` models `FinalComposite::HasCompositeShader()`.  The
audio-driven drawables (custom shapes, custom waveforms, default waveform,
darken-center, border) are collapsed into a single `Img.overlays` step, and
each draw call is modelled as replacing the image of the texture backing
attachment 0 of the framebuffer bound at that point. -/
def renderFrame (resized hasCompositeShader : Bool) (st : RenderState) : RenderState :=
  -- Step 2: resize marks the first frame.
  let firstFrame := if resized then true else st.isFirstFrame
  -- Step 3: main texture := previous attachment 0; run and clamp per-frame code.
  let pf := perFrameUpdate st.perFrame
  -- Bind previous; draw the motion-vector field into it unless first frame.
  let content1 :=
    if ¬firstFrame then
      match st.attachments st.previous 0 with
      | some t => setContent st.content t (.motion (st.content t))
      | none => st.content
    else st.content
  -- Y-flip the previous frame into the flip texture; it becomes "main".
  let content2 :=
    match st.attachments st.previous 0 with
    | some t => setContent content1 .flipTex (.flip (content1 t))
    | none => content1
  -- Bind current; temporarily attach the motion-vector UV map at slot 1.
  let att1 := setAttachment st.attachments st.current 1 (some .uvMap)
  -- Warp-mesh draw into the current framebuffer, sampling the main texture.
  let warpOut := Img.warp (content2 .flipTex)
  let content3 :=
    match att1 st.current 0 with
    | some t => setContent content2 t warpOut
    | none => content2
  -- Remove the UV map from slot 1.
  let att2 := setAttachment att1 st.current 1 none
  -- Update the blur textures from the previous framebuffer's attachment 0.
  let blurSrc := (att2 st.previous 0).map content3
  -- Draw shapes, waveforms, darken-center and borders into current.
  let content4 :=
    match att2 st.current 0 with
    | some t => setContent content3 t (.overlays (content3 t))
    | none => content3
  -- Y-flip the current image into the flip texture for compositing.
  let content5 :=
    match att2 st.current 0 with
    | some t => setContent content4 .flipTex (.flip (content4 t))
    | none => content4
  -- Composite from the main texture into the previous framebuffer.
  let content6 :=
    match att2 st.previous 0 with
    | some t => setContent content5 t (.composite (content5 .flipTex))
    | none => content5
  -- Without a composite shader, y-flip the previous framebuffer in place.
  let content7 :=
    if ¬hasCompositeShader then
      match att2 st.previous 0 with
      | some t => setContent content6 t (.flip (content6 t))
      | none => content6
    else content6
  -- Swap framebuffer ids and clear the first-frame flag.
  { attachments := att2
    content := content7
    current := st.previous
    previous := st.current
    mainTexture := some .flipTex
    isFirstFrame := false
    perFrame := pf
    warpSlot1 := att1 st.current 1
    warpOutput := warpOut
    blurSource := blurSrc }

/-- Concrete render state for evaluating `renderFrame`: the standard wiring
established by `InitializePreset` (attachment 0 of each framebuffer holds
that framebuffer's color texture, slot 1 empty), current framebuffer 0,
previous framebuffer 1, past the first frame. -/
def sampleRenderState : RenderState where
  attachments := fun fb slot => if slot = 0 then some (.colorBuffer fb) else none
  content := fun t =>
    match t with
    | .colorBuffer fb => .initImage fb.val
    | .uvMap => .uvContent
    | .flipTex => .initImage 2
  current := 0
  previous := 1
  mainTexture := none
  isFirstFrame := false
  perFrame := ⟨1, 1⟩
  warpSlot1 := none
  warpOutput := .initImage 0
  blurSource := none

/-! ## Shader wrapper asynchronous compile (Shader.cpp, Shader.hpp) -/

/-- States of the asynchronous shader compile/link machine as used by the
implementation in Shader.cpp (`None`, `CompilingShaders`, `ReadyToLink`,
`LinkingProgram`, `Complete`).  The enum declaration in Shader.hpp omits the
`ReadyToLink` enumerator that Shader.cpp stores and matches on; the embedding
follows the implementation. -/
inductive AsyncState where
  | None
  | CompilingShaders
  | ReadyToLink
  | LinkingProgram
  | Complete
deriving DecidableEq, Repr

/-- Result of one `Shader::IsCompileComplete` poll: the async state after the
poll, the returned boolean, and whether the poll attached the shader objects
and submitted the program link (`Shader::AdvanceToLinking`). -/
structure PollResult where
  state : AsyncState
  ret : Bool
  linkSubmitted : Bool
deriving DecidableEq, Repr

/-- Embedding of `Shader::IsCompileComplete` (Shader.cpp, lines 139-215)
together with `Shader::AdvanceToLinking` (lines 399-415).
`parallelAvailable` mirrors `m_asyncParallelAvailable`; `vertexDone`,
`fragmentDone` and `linkDone` are the `GL_COMPLETION_STATUS_KHR` values the
driver reports during this poll for the two shader objects and the
program. -/
def isCompileComplete (parallelAvailable vertexDone fragmentDone linkDone : Bool) :
    AsyncState → PollResult
  | .None => ⟨.None, true, false⟩
  | .CompilingShaders =>
    if ¬parallelAvailable then
      -- AdvanceToLinking, then straight to Complete (blocking path).
      ⟨.Complete, true, true⟩
    else if vertexDone ∧ fragmentDone then ⟨.ReadyToLink, false, false⟩
    else ⟨.CompilingShaders, false, false⟩
  | .ReadyToLink => ⟨.LinkingProgram, false, true⟩
  | .LinkingProgram =>
    if linkDone then ⟨.Complete, true, false⟩
    else ⟨.LinkingProgram, false, false⟩
  | .Complete => ⟨.Complete, true, false⟩

/-- Runs a sequence of `IsCompileComplete` polls from a given async state.
Each list entry carries the driver-reported completion statuses
(vertexDone, fragmentDone, linkDone) for that frame's poll; the result
collects every poll's outcome. -/
def runPolls (parallelAvailable : Bool) :
    AsyncState → List (Bool × Bool × Bool) → List PollResult
  | _, [] => []
  | s, obs :: rest =>
    let r := isCompileComplete parallelAvailable obs.1 obs.2.1 obs.2.2 s
    r :: runPolls parallelAvailable r.state rest

/-! ## GL procedure resolver (GLResolver.cpp) -/

/-- Backends the resolver can select. -/
inductive Backend where
  | None
  | EGL
  | GLX
  | WGL
  | CGL
deriving DecidableEq, Repr

/-- Splits a character list into its maximal runs of non-space characters,
mirroring the scanning loop of `HasSpaceSeparatedToken`.  `acc` holds the
current run, reversed. -/
def spaceTokens : List Char → List Char → List (List Char)
  | [], acc => if acc.isEmpty then [] else [acc.reverse]
  | c :: cs, acc =>
    if c = ' ' then
      if acc.isEmpty then spaceTokens cs [] else acc.reverse :: spaceTokens cs []
    else spaceTokens cs (c :: acc)

/-- Embedding of `HasSpaceSeparatedToken` (GLResolver.cpp, lines 206-246):
whole-token, case-sensitive search in a space-separated extension string; an
empty token never matches. -/
def hasSpaceSeparatedToken (list token : String) : Bool :=
  if token.data.isEmpty then false
  else (spaceTokens list.data []).any (· == token.data)

/-- The vendor/standards-body suffixes recognised by `IsLikelyExtensionName`
(GLResolver.cpp, lines 270-289). -/
def kSuffixes : List String :=
  ["ARB", "EXT", "KHR", "OES", "NV", "NVX", "AMD", "APPLE",
   "ANGLE", "INTEL", "MESA", "QCOM", "IMG", "ARM", "ATI", "IBM",
   "SUN", "SGI", "SGIX", "OML", "GREMEDY", "HP", "3DFX", "S3",
   "PVR", "VIV", "OVR", "NOK", "MSFT", "SEC", "DMP", "FJ"]

/-- Embedding of `IsLikelyExtensionName` (GLResolver.cpp, lines 270-289):
true when the name ends with one of the recognised suffixes. -/
def isLikelyExtensionName (name : String) : Bool :=
  kSuffixes.any (fun suffix => suffix.data.isSuffixOf name.data)

/-- Embedding of `ShouldUseEglGetProcAddressForName` (GLResolver.cpp, lines
294-302); the null-name guard is handled by totality of `String`. -/
def shouldUseEglGetProcAddressForName (name : String) : Bool :=
  isLikelyExtensionName name

/-- Embedding of `ShouldUseGlxGetProcAddressForName` (GLResolver.cpp, lines
316-335): names starting with "glX", or likely extension names. -/
def shouldUseGlxGetProcAddressForName (name : String) : Bool :=
  ("glX".data.isPrefixOf name.data) || isLikelyExtensionName name

/-- Pointer-sized maximum for the 64-bit builds this embedding models
(`std::numeric_limits<std::uintptr_t>::max()`). -/
def uintptrMax : Nat := 2 ^ 64 - 1

/-- Embedding of `IsInvalidWglProcAddressValue` (GLResolver.cpp, lines
172-178): return values of `wglGetProcAddress` treated as "unsupported"
sentinels. -/
def isInvalidWglProcAddressValue (raw : Nat) : Bool :=
  raw == 0 || raw == 1 || raw == 2 || raw == 3 ||
  raw == uintptrMax || raw == uintptrMax - 1 || raw == uintptrMax - 2

/-- Embedding of the detection of the EGL all-proc-addresses capability
during resolver initialization (GLResolver.cpp, lines 829-930).
`clientExt` is the extension string returned by
`eglQueryString(EGL_NO_DISPLAY, EGL_EXTENSIONS)` and `displayExt` the one
returned for the current display; `none` models an unavailable query
function, a missing display, or a null result. -/
def computeEglGetAllProcAddresses (clientExt displayExt : Option String) : Bool :=
  (match clientExt with
   | some s => hasSpaceSeparatedToken s "EGL_KHR_client_get_all_proc_addresses"
   | none => false) ||
  (match displayExt with
   | some s => hasSpaceSeparatedToken s "EGL_KHR_get_all_proc_addresses"
   | none => false)

/-- Snapshot of the resolver state consulted by `ResolveProcAddress` and the
fallback chain of `GetProcAddress`.  Procedure addresses are naturals with 0
as the null pointer; driver/loader entry points are oracle functions, with
`none` modelling a null function pointer or an unopened library. -/
structure ResolverState where
  backend : Backend
  userResolver : Option (String → Nat)
  eglGetProcAddress : Option (String → Nat)
  eglGetAllProcAddresses : Bool
  glxGetProcAddress : Option (String → Nat)
  wglGetProcAddress : Option (String → Nat)
  findGlobalSymbol : String → Nat
  eglLibSymbol : Option (String → Nat)
  glLibSymbol : Option (String → Nat)
  glxLibSymbol : Option (String → Nat)

/-- Result and observable effects of one `ResolveProcAddress` call: the
returned address and whether each provider entry point was called. -/
structure ResolveOutcome where
  result : Nat
  eglConsulted : Bool
  glxConsulted : Bool
  wglConsulted : Bool
deriving DecidableEq, Repr

/-- The EGL provider block of `GLResolver::ResolveProcAddress`
(GLResolver.cpp, lines 1413-1425): `eglGetProcAddress` is consulted when the
backend is EGL (or undetermined), the entry point is non-null, and either
the all-proc-addresses capability was advertised or the name looks like an
extension entry point.  Returns the value obtained and whether the call was
made. -/
def eglProviderStep (st : ResolverState) (name : String) : Nat × Bool :=
  if st.backend = .EGL ∨ st.backend = .None then
    match st.eglGetProcAddress with
    | some f =>
      if st.eglGetAllProcAddresses || shouldUseEglGetProcAddressForName name then
        (f name, true)
      else (0, false)
    | none => (0, false)
  else (0, false)

/-- Embedding of `GLResolver::ResolveProcAddress` (GLResolver.cpp, lines
1353-1484) as compiled for the Linux desktop configuration: user resolver,
EGL provider block, then the GLX provider block with its extension-name
policy. -/
def resolveProcAddressLinux (st : ResolverState) (name : String) : ResolveOutcome :=
  let user := match st.userResolver with | some f => f name | none => 0
  if user ≠ 0 then ⟨user, false, false, false⟩
  else
    let egl := eglProviderStep st name
    if egl.1 ≠ 0 then ⟨egl.1, egl.2, false, false⟩
    else if st.backend = .GLX ∨ st.backend = .None then
      match st.glxGetProcAddress with
      | some f =>
        if shouldUseGlxGetProcAddressForName name then
          ⟨f name, egl.2, true, false⟩
        else ⟨0, egl.2, false, false⟩
      | none => ⟨0, egl.2, false, false⟩
    else ⟨0, egl.2, false, false⟩

/-- Embedding of `GLResolver::ResolveProcAddress` (GLResolver.cpp, lines
1353-1484) as compiled for the Windows configuration: user resolver, EGL
provider block, then the WGL provider block with its sentinel filtering and
its preference for `opengl32` exports over `wglGetProcAddress` results. -/
def resolveProcAddressWin (st : ResolverState) (name : String) : ResolveOutcome :=
  let user := match st.userResolver with | some f => f name | none => 0
  if user ≠ 0 then ⟨user, false, false, false⟩
  else
    let egl := eglProviderStep st name
    if egl.1 ≠ 0 then ⟨egl.1, egl.2, false, false⟩
    else if st.backend = .WGL ∨ st.backend = .None then
      match st.wglGetProcAddress with
      | some f =>
        let proc := f name
        if proc ≠ 0 then
          if ¬isInvalidWglProcAddressValue proc then
            let e := st.findGlobalSymbol name
            if e ≠ 0 then ⟨e, egl.2, false, true⟩
            else ⟨proc, egl.2, false, true⟩
          else ⟨0, egl.2, false, true⟩
        else ⟨0, egl.2, false, true⟩
      | none => ⟨0, egl.2, false, false⟩
    else ⟨0, egl.2, false, false⟩

/-- The post-provider fallback chain of `GLResolver::GetProcAddress`
(GLResolver.cpp, lines 652-687): the process-wide global symbol scope, then
explicit exports of the opened EGL, GL and GLX libraries.  The opt-in GLX /
EGL core-getProcAddress fallbacks (build switches that default to off) are
not modelled. -/
def fallbackChain (st : ResolverState) (name : String) : Nat :=
  let g := st.findGlobalSymbol name
  if g ≠ 0 then g
  else
    let e := match st.eglLibSymbol with | some f => f name | none => 0
    if e ≠ 0 then e
    else
      let gl := match st.glLibSymbol with | some f => f name | none => 0
      if gl ≠ 0 then gl
      else match st.glxLibSymbol with | some f => f name | none => 0

/-- Embedding of `GLResolver::GetProcAddress` (GLResolver.cpp, lines
608-738) after its initialization and context-verification gates, in the
Linux configuration: the provider resolve, then the fallback chain. -/
def getProcAddressLinux (st : ResolverState) (name : String) : ResolveOutcome :=
  let r := resolveProcAddressLinux st name
  if r.result ≠ 0 then r
  else { r with result := fallbackChain st name }

/-- Embedding of `GLResolver::GetProcAddress` (GLResolver.cpp, lines
608-738) after its initialization and context-verification gates, in the
Windows configuration: the provider resolve, then the fallback chain. -/
def getProcAddressWin (st : ResolverState) (name : String) : ResolveOutcome :=
  let r := resolveProcAddressWin st name
  if r.result ≠ 0 then r
  else { r with result := fallbackChain st name }

/-- Concrete resolver state for the WGL sentinel scenario of the spec:
backend WGL, no user resolver, `wglGetProcAddress` returning the sentinel 1
for every name, and an export table that resolves "glFooEXT" to the address
4096. -/
def wglSentinelState : ResolverState where
  backend := .WGL
  userResolver := none
  eglGetProcAddress := none
  eglGetAllProcAddresses := false
  glxGetProcAddress := none
  wglGetProcAddress := some fun _ => 1
  findGlobalSymbol := fun n => if n == "glFooEXT" then 4096 else 0
  eglLibSymbol := none
  glLibSymbol := none
  glxLibSymbol := none

/-- Concrete EGL-backend resolver state whose driver advertises
`EGL_KHR_client_get_all_proc_addresses` in its client extension string. -/
def eglAllState : ResolverState where
  backend := .EGL
  userResolver := none
  eglGetProcAddress := some fun _ => 7
  eglGetAllProcAddresses :=
    computeEglGetAllProcAddresses (some "EGL_KHR_client_get_all_proc_addresses") none
  glxGetProcAddress := none
  wglGetProcAddress := none
  findGlobalSymbol := fun _ => 0
  eglLibSymbol := none
  glLibSymbol := none
  glxLibSymbol := none

/-- Concrete EGL-backend resolver state whose driver advertises neither
all-proc-addresses extension, with an export table resolving the core name
"glBindBuffer" to the address 2048. -/
def eglSuffixState : ResolverState where
  backend := .EGL
  userResolver := none
  eglGetProcAddress := some fun _ => 0
  eglGetAllProcAddresses :=
    computeEglGetAllProcAddresses (some "EGL_EXT_client_extensions") none
  glxGetProcAddress := none
  wglGetProcAddress := none
  findGlobalSymbol := fun n => if n == "glBindBuffer" then 2048 else 0
  eglLibSymbol := none
  glLibSymbol := none
  glxLibSymbol := none

/-- The file-read worker routine can only leave the state unchanged, advance
it to `GlStaging`, or fail. -/
lemma doFileRead_state_cases (c0 c1 c2 : Bool) (protocol resolvedPath : String)
    (fs : FileModel) (ctx : SwitchCtx) :
    (doFileRead c0 c1 c2 protocol resolvedPath fs ctx).state = ctx.state ∨
    (doFileRead c0 c1 c2 protocol resolvedPath fs ctx).state = .GlStaging ∨
    (doFileRead c0 c1 c2 protocol resolvedPath fs ctx).state = .Failed := by
  unfold doFileRead
  split_ifs <;> simp

/-- The expression-compile worker routine can only leave the state unchanged,
advance it to `GlPhases`, or fail. -/
lemma doExpressionCompile_state_cases (c0 c1 c2 hasPreset : Bool)
    (compileErr preloadErr : Option String) (ctx : SwitchCtx) :
    (doExpressionCompile c0 c1 c2 hasPreset compileErr preloadErr ctx).state = ctx.state ∨
    (doExpressionCompile c0 c1 c2 hasPreset compileErr preloadErr ctx).state = .GlPhases ∨
    (doExpressionCompile c0 c1 c2 hasPreset compileErr preloadErr ctx).state = .Failed := by
  unfold doExpressionCompile
  rcases compileErr with _ | e <;> rcases preloadErr with _ | e' <;> split_ifs <;> simp

/-- Helper: the invalid-size error message contains the words "invalid size"
as a substring, for every resolved path. -/
lemma invalidSizeMessage_contains (rp : String) :
    ∃ pre suf, (invalidSizeMessage rp).data =
      pre ++ ("invalid size" : String).data ++ suf := by
  refine ⟨("Preset file has " : String).data, (": \"" ++ rp ++ "\"." : String).data, ?_⟩
  have h : "Preset file has invalid size: \"" =
      "Preset file has " ++ "invalid size" ++ ": \"" := by decide
  simp only [invalidSizeMessage, h, String.data_append, List.append_assoc]

/-- C1: for a file-read job on a local path, `DoFileRead` stores the file
bytes and advances to `GlStaging` only when the file was opened, fully read,
and its size is positive and at most 1 MiB; a 2 MiB file instead produces a
`Failed` state with an error message containing "invalid size", and leaves
`fileData` unchanged. -/
theorem doFileRead_stores_only_within_size_limit
    (c0 c1 c2 : Bool) (protocol resolvedPath : String) (fs : FileModel)
    (ctx : SwitchCtx)
    (hstate : ctx.state = .CpuLoading)
    (hlocal : protocol = "" ∨ protocol = "file") :
    ((doFileRead c0 c1 c2 protocol resolvedPath fs ctx).state = .GlStaging →
       fs.openOk = true ∧ fs.readOk = true ∧ 0 < fs.size ∧ fs.size ≤ 0x100000 ∧
       (doFileRead c0 c1 c2 protocol resolvedPath fs ctx).fileData = fs.bytes) ∧
    (c0 = false → c1 = false → fs.openOk = true → fs.size = 0x200000 →
       (doFileRead c0 c1 c2 protocol resolvedPath fs ctx).state = .Failed ∧
       (∃ pre suf,
         (doFileRead c0 c1 c2 protocol resolvedPath fs ctx).errorMessage.data =
           pre ++ ("invalid size" : String).data ++ suf) ∧
       (doFileRead c0 c1 c2 protocol resolvedPath fs ctx).fileData = ctx.fileData) := by
  have hproto : ¬(protocol ≠ "" ∧ protocol ≠ "file") := by
    rcases hlocal with h | h <;> simp [h]
  have hmsg := invalidSizeMessage_contains resolvedPath
  constructor
  · intro hgl
    unfold doFileRead at hgl ⊢
    split_ifs at hgl ⊢ <;> simp_all
  · intro hc0 hc1 hopen hsize
    unfold doFileRead
    split_ifs <;> simp_all

/-- Witness for C1: a concrete local 2 MiB file is rejected, and a concrete
in-range file is accepted with its bytes stored. -/
theorem doFileRead_stores_only_within_size_limit_witness :
    (doFileRead false false false "" "/p/a.milk"
        ⟨true, 0x200000, true, [1, 2]⟩ ⟨.CpuLoading, "/p/a.milk", [], "", false⟩).state
      = .Failed ∧
    (∃ pre suf,
      (doFileRead false false false "" "/p/a.milk"
          ⟨true, 0x200000, true, [1, 2]⟩ ⟨.CpuLoading, "/p/a.milk", [], "", false⟩).errorMessage.data =
        pre ++ ("invalid size" : String).data ++ suf) ∧
    (doFileRead false false false "" "/p/a.milk"
        ⟨true, 0x200000, true, [1, 2]⟩ ⟨.CpuLoading, "/p/a.milk", [], "", false⟩).fileData = [] := by
  exact (doFileRead_stores_only_within_size_limit false false false "" "/p/a.milk"
      ⟨true, 0x200000, true, [1, 2]⟩ ⟨.CpuLoading, "/p/a.milk", [], "", false⟩
      rfl (Or.inl rfl)).2 rfl rfl rfl rfl

/-- C10: a zero-byte (or otherwise non-positive-size) local preset file is
rejected exactly like an oversized one: `DoFileRead` advances to `GlStaging`
only when `0 < size ≤ 0x100000`, and for `size ≤ 0` it stores the same
"invalid size" error message and the `Failed` state without writing
`fileData`. -/
theorem doFileRead_rejects_empty_file
    (c0 c1 c2 : Bool) (protocol resolvedPath : String) (fs : FileModel)
    (ctx : SwitchCtx)
    (hstate : ctx.state = .CpuLoading)
    (hlocal : protocol = "" ∨ protocol = "file") :
    ((doFileRead c0 c1 c2 protocol resolvedPath fs ctx).state = .GlStaging →
       0 < fs.size ∧ fs.size ≤ 0x100000) ∧
    (c0 = false → c1 = false → fs.openOk = true → fs.size ≤ 0 →
       (doFileRead c0 c1 c2 protocol resolvedPath fs ctx).state = .Failed ∧
       (doFileRead c0 c1 c2 protocol resolvedPath fs ctx).errorMessage =
         invalidSizeMessage resolvedPath ∧
       (doFileRead c0 c1 c2 protocol resolvedPath fs ctx).fileData = ctx.fileData) := by
  have hproto : ¬(protocol ≠ "" ∧ protocol ≠ "file") := by
    rcases hlocal with h | h <;> simp [h]
  constructor
  · intro hgl
    unfold doFileRead at hgl
    split_ifs at hgl <;> simp_all
  · intro hc0 hc1 hopen hsize
    unfold doFileRead
    split_ifs <;> simp_all

/-- Witness for C10: a concrete zero-byte local file yields `Failed`, the
invalid-size message, and an untouched `fileData`. -/
theorem doFileRead_rejects_empty_file_witness :
    (doFileRead false false false "file" "/p/empty.milk"
        ⟨true, 0, true, []⟩ ⟨.CpuLoading, "file:///p/empty.milk", [7], "", false⟩).state
      = .Failed ∧
    (doFileRead false false false "file" "/p/empty.milk"
        ⟨true, 0, true, []⟩ ⟨.CpuLoading, "file:///p/empty.milk", [7], "", false⟩).errorMessage
      = invalidSizeMessage "/p/empty.milk" ∧
    (doFileRead false false false "file" "/p/empty.milk"
        ⟨true, 0, true, []⟩ ⟨.CpuLoading, "file:///p/empty.milk", [7], "", false⟩).fileData
      = [7] := by
  exact (doFileRead_rejects_empty_file false false false "file" "/p/empty.milk"
      ⟨true, 0, true, []⟩ ⟨.CpuLoading, "file:///p/empty.milk", [7], "", false⟩
      rfl (Or.inr rfl)).2 rfl rfl rfl le_rfl

/-- C2: every step of the preset-switch state machine moves the atomic state
forward along the order Idle -> CpuLoading -> GlStaging -> ExpressionCompiling
-> GlPhases -> Activating -> Completed (or leaves it unchanged, or moves it to
`Failed` from a non-terminal state); no step moves the state backwards, and no
step leaves a `Completed` or `Failed` context. -/
theorem switchStep_monotone_and_terminal (c c' : SwitchCtx) :
    (SwitchStep c c' →
       c.state.rank ≤ c'.state.rank ∧
       (c'.state = c.state ∨ c'.state = .Failed ∨ c.state.next = some c'.state)) ∧
    ((c.state = .Completed ∨ c.state = .Failed) → ¬SwitchStep c c') := by
  constructor
  · intro hstep
    cases hstep with
    | request h =>
      have hs : (requestSwitchStep c).state = .CpuLoading := rfl
      rw [hs, h]; decide
    | fileRead c0 c1 c2 protocol resolvedPath fs h =>
      rcases doFileRead_state_cases c0 c1 c2 protocol resolvedPath fs c with hs | hs | hs <;>
        rw [hs] <;> rw [h] <;> decide
    | stageGl constructOk err h =>
      have hs : (stageGlStep constructOk err c).state = .ExpressionCompiling ∨
          (stageGlStep constructOk err c).state = .Failed := by
        unfold stageGlStep; split_ifs <;> simp
      rcases hs with hs | hs <;> rw [hs] <;> rw [h] <;> decide
    | exprCompile c0 c1 c2 hasPreset compileErr preloadErr h =>
      rcases doExpressionCompile_state_cases c0 c1 c2 hasPreset compileErr preloadErr c
        with hs | hs | hs <;> rw [hs] <;> rw [h] <;> decide
    | glPhases h =>
      have hs : (glPhasesStep c).state = .Activating := rfl
      rw [hs, h]; decide
    | activate h =>
      have hs : (activateStep c).state = .Completed := rfl
      rw [hs, h]; decide
    | fail err h1 h2 =>
      have hs : (failStep err c).state = .Failed := rfl
      rw [hs]
      refine ⟨?_, Or.inr (Or.inl rfl)⟩
      cases c.state <;> decide
  · rintro hterm hstep
    cases hstep with
    | request h => rcases hterm with ht | ht <;> rw [h] at ht <;> exact absurd ht (by decide)
    | fileRead c0 c1 c2 protocol resolvedPath fs h =>
      rcases hterm with ht | ht <;> rw [h] at ht <;> exact absurd ht (by decide)
    | stageGl constructOk err h =>
      rcases hterm with ht | ht <;> rw [h] at ht <;> exact absurd ht (by decide)
    | exprCompile c0 c1 c2 hasPreset compileErr preloadErr h =>
      rcases hterm with ht | ht <;> rw [h] at ht <;> exact absurd ht (by decide)
    | glPhases h => rcases hterm with ht | ht <;> rw [h] at ht <;> exact absurd ht (by decide)
    | activate h => rcases hterm with ht | ht <;> rw [h] at ht <;> exact absurd ht (by decide)
    | fail err h1 h2 => exact hterm.elim h1 h2

/-- Witness for C2: the request step on a concrete idle context advances the
rank, and a concrete completed context admits no step. -/
theorem switchStep_monotone_and_terminal_witness :
    (PresetSwitchState.rank (⟨.Idle, "p", [], "", false⟩ : SwitchCtx).state ≤
       PresetSwitchState.rank (requestSwitchStep ⟨.Idle, "p", [], "", false⟩).state) ∧
    ¬SwitchStep ⟨.Completed, "p", [], "", false⟩
        (requestSwitchStep ⟨.Completed, "p", [], "", false⟩) := by
  constructor
  · exact ((switchStep_monotone_and_terminal ⟨.Idle, "p", [], "", false⟩
      (requestSwitchStep ⟨.Idle, "p", [], "", false⟩)).1 (SwitchStep.request rfl)).1
  · exact (switchStep_monotone_and_terminal ⟨.Completed, "p", [], "", false⟩
      (requestSwitchStep ⟨.Completed, "p", [], "", false⟩)).2 (Or.inl rfl)

/-- C3: after `PerFrameUpdate`, gamma lies in [0, 8] and echo_zoom lies in
[0.001, 1000] whatever values the per-frame expression code assigned; in
particular gamma = -1 becomes 0 and echo_zoom = 2000 becomes 1000. -/
theorem perFrameUpdate_clamps (ctx : PerFrameContext) :
    0 ≤ (perFrameUpdate ctx).gamma ∧ (perFrameUpdate ctx).gamma ≤ 8 ∧
    1 / 1000 ≤ (perFrameUpdate ctx).echo_zoom ∧
    (perFrameUpdate ctx).echo_zoom ≤ 1000 ∧
    (perFrameUpdate ⟨-1, 2000⟩).gamma = 0 ∧
    (perFrameUpdate ⟨-1, 2000⟩).echo_zoom = 1000 := by
  refine ⟨le_max_left _ _, max_le (by norm_num) (min_le_left _ _),
    le_max_left _ _, max_le (by norm_num) (min_le_left _ _), ?_, ?_⟩ <;>
    norm_num [perFrameUpdate]

/-- C7 counterexample: `CompileExpressions` is not a no-op after compilation
has already been done; calling it again on a freshly compiled preset changes
the preset's compile state (it re-runs the expression compilation). -/
theorem compileExpressions_not_noop :
    compileExpressions (compileExpressions ⟨false, false, []⟩) ≠
      compileExpressions ⟨false, false, []⟩ := by decide

/-- C7 amended: after compilation has been done, a further call to
`CompileExpressions` skips the shader transpile (guarded by
`m_shadersTranspiled`) but unconditionally re-runs
`CompileCodeAndRunInitExpressions` and re-sets the compiled flag, so it
performs work rather than being a no-op. -/
theorem compileExpressions_second_call (p : PresetCompileState)
    (h : p.shadersTranspiled = true) :
    compileExpressions p =
      { p with trace := p.trace ++ [CompileWork.compileCodeAndRunInit],
               expressionsCompiled := true } := by
  simp [compileExpressions, h]

/-- Witness for the amended C7: a concrete already-compiled preset gains
exactly one more expression-compile call. -/
theorem compileExpressions_second_call_witness :
    compileExpressions
        ⟨true, true, [CompileWork.transpile, CompileWork.compileCodeAndRunInit]⟩ =
      ⟨true, true, [CompileWork.transpile, CompileWork.compileCodeAndRunInit,
        CompileWork.compileCodeAndRunInit]⟩ := by
  exact compileExpressions_second_call
    ⟨true, true, [CompileWork.transpile, CompileWork.compileCodeAndRunInit]⟩ rfl

/-- C5: the motion-vector UV map is attached at slot 1 of the current
framebuffer only for the warp-mesh draw and is removed again before
`RenderFrame` returns: if no slot-1 attachment exists on entry then after the
call neither the new current nor the new previous framebuffer has one, while
the snapshot taken at the warp draw shows the UV map attached at slot 1. -/
theorem renderFrame_slot1_restored (resized hasCompositeShader : Bool)
    (st : RenderState) (h : st.attachments st.previous 1 = none) :
    ((renderFrame resized hasCompositeShader st).attachments
        (renderFrame resized hasCompositeShader st).current 1 = none) ∧
    ((renderFrame resized hasCompositeShader st).attachments
        (renderFrame resized hasCompositeShader st).previous 1 = none) ∧
    (renderFrame resized hasCompositeShader st).warpSlot1 = some .uvMap := by
  refine ⟨?_, ?_, ?_⟩
  · show (setAttachment (setAttachment st.attachments st.current 1 (some .uvMap))
      st.current 1 none) st.previous 1 = none
    by_cases hc : st.previous = st.current
    · simp [setAttachment, hc]
    · simp [setAttachment, hc, h]
  · show (setAttachment (setAttachment st.attachments st.current 1 (some .uvMap))
      st.current 1 none) st.current 1 = none
    simp [setAttachment]
  · show (setAttachment st.attachments st.current 1 (some .uvMap)) st.current 1 =
      some .uvMap
    simp [setAttachment]

/-- Witness for C5: the standard post-initialization state has no slot-1
attachments, and one rendered frame keeps it that way while the warp draw
saw the UV map attached. -/
theorem renderFrame_slot1_restored_witness :
    sampleRenderState.attachments sampleRenderState.previous 1 = none ∧
    ((renderFrame false true sampleRenderState).attachments
        (renderFrame false true sampleRenderState).current 1 = none) ∧
    ((renderFrame false true sampleRenderState).attachments
        (renderFrame false true sampleRenderState).previous 1 = none) ∧
    (renderFrame false true sampleRenderState).warpSlot1 = some .uvMap := by
  refine ⟨by decide, ?_⟩
  exact renderFrame_slot1_restored false true sampleRenderState (by decide)

/-- C6 counterexample: in a frame rendered from the standard state, the image
passed to `BlurTexture::Update` is not the image the warp-mesh draw just
produced (the code reads the previous framebuffer's attachment 0, while the
warp draw rendered into the current framebuffer). -/
theorem renderFrame_blur_not_warp_output :
    (renderFrame false true sampleRenderState).blurSource ≠
      some (renderFrame false true sampleRenderState).warpOutput := by decide

/-- C6 amended: in every steady-state frame (standard attachment wiring,
distinct ping-pong buffers, not the first frame), the blur textures are
updated from the previous framebuffer's attachment-0 image — the previous
frame's image with the motion-vector field drawn over it — and never from
the image the warp draw just produced into the current framebuffer. -/
theorem renderFrame_blur_from_previous (hasCompositeShader : Bool)
    (st : RenderState)
    (hp : st.attachments st.previous 0 = some (.colorBuffer st.previous))
    (hc : st.attachments st.current 0 = some (.colorBuffer st.current))
    (hne : st.previous ≠ st.current)
    (hff : st.isFirstFrame = false) :
    (renderFrame false hasCompositeShader st).blurSource =
      some (.motion (st.content (.colorBuffer st.previous))) ∧
    (renderFrame false hasCompositeShader st).warpOutput =
      .warp (.flip (.motion (st.content (.colorBuffer st.previous)))) ∧
    (renderFrame false hasCompositeShader st).blurSource ≠
      some (renderFrame false hasCompositeShader st).warpOutput := by
  have hba : (setAttachment (setAttachment st.attachments st.current 1 (some .uvMap))
      st.current 1 none) st.previous 0 = some (.colorBuffer st.previous) := by
    simp [setAttachment, hp]
  have ha1 : (setAttachment st.attachments st.current 1 (some .uvMap)) st.current 0 =
      some (.colorBuffer st.current) := by
    simp [setAttachment, hc]
  simp only [renderFrame, hff, hp, hc, hba, ha1, Bool.not_false, if_true, if_false]
  simp [setContent, hne, Ne.symm hne]

/-- Witness for the amended C6: applying it at the standard concrete state. -/
theorem renderFrame_blur_from_previous_witness :
    (renderFrame false true sampleRenderState).blurSource =
      some (.motion (sampleRenderState.content (.colorBuffer sampleRenderState.previous))) ∧
    (renderFrame false true sampleRenderState).warpOutput =
      .warp (.flip (.motion (sampleRenderState.content
        (.colorBuffer sampleRenderState.previous)))) ∧
    (renderFrame false true sampleRenderState).blurSource ≠
      some (renderFrame false true sampleRenderState).warpOutput := by
  exact renderFrame_blur_from_previous true sampleRenderState
    (by decide) (by decide) (by decide) (by decide)

/-- C4: with the parallel-compile extension available, `IsCompileComplete`
polls `COMPLETION_STATUS` on both shaders; the poll that first observes both
complete moves to `ReadyToLink` and returns false without submitting the
link; the next poll submits the link and returns false; later polls return
true exactly when the link's completion status reports done.  The final
conjunct runs a four-poll trace exhibiting this schedule. -/
theorem shader_async_poll_protocol (vertexDone fragmentDone linkDone : Bool) :
    (isCompileComplete true vertexDone fragmentDone linkDone .CompilingShaders =
       if vertexDone ∧ fragmentDone then ⟨.ReadyToLink, false, false⟩
       else ⟨.CompilingShaders, false, false⟩) ∧
    isCompileComplete true vertexDone fragmentDone linkDone .ReadyToLink =
      ⟨.LinkingProgram, false, true⟩ ∧
    (isCompileComplete true vertexDone fragmentDone linkDone .LinkingProgram =
       if linkDone then ⟨.Complete, true, false⟩
       else ⟨.LinkingProgram, false, false⟩) ∧
    ((isCompileComplete true vertexDone fragmentDone linkDone .LinkingProgram).ret
       = true ↔ linkDone = true) ∧
    runPolls true .CompilingShaders
        [(false, true, true), (true, true, false), (true, true, false),
         (true, true, true)] =
      [⟨.CompilingShaders, false, false⟩, ⟨.ReadyToLink, false, false⟩,
       ⟨.LinkingProgram, false, true⟩, ⟨.Complete, true, false⟩] := by
  cases vertexDone <;> cases fragmentDone <;> cases linkDone <;> decide

/-- C8: when `wglGetProcAddress` returns a value in the sentinel set
{0, 1, 2, 3, UINTPTR_MAX, UINTPTR_MAX-1, UINTPTR_MAX-2} for a name, the
provider step discards it (returning null) and `GetProcAddress` falls back
to the exported-symbol lookup chain, so the sentinel is never returned to the
caller. -/
theorem wgl_sentinel_not_returned (st : ResolverState) (name : String)
    (w : String → Nat)
    (hb : st.backend = .WGL)
    (huser : st.userResolver = none)
    (hwgl : st.wglGetProcAddress = some w)
    (hsent : isInvalidWglProcAddressValue (w name) = true) :
    (resolveProcAddressWin st name).result = 0 ∧
    (resolveProcAddressWin st name).wglConsulted = true ∧
    (getProcAddressWin st name).result = fallbackChain st name := by
  have hegl : eglProviderStep st name = (0, false) := by
    simp [eglProviderStep, hb]
  by_cases hz : w name = 0
  · refine ⟨?_, ?_, ?_⟩ <;>
      simp [resolveProcAddressWin, getProcAddressWin, huser, hwgl, hegl, hb, hz]
  · refine ⟨?_, ?_, ?_⟩ <;>
      simp [resolveProcAddressWin, getProcAddressWin, huser, hwgl, hegl, hb, hz, hsent]

/-- Witness for C8: with a resolver whose `wglGetProcAddress` returns the
sentinel 1 for "glFooEXT", the provider step yields null, the fallback chain
is consulted, and the caller receives the exported address 4096 rather than
the sentinel. -/
theorem wgl_sentinel_not_returned_witness :
    (resolveProcAddressWin wglSentinelState "glFooEXT").result = 0 ∧
    (resolveProcAddressWin wglSentinelState "glFooEXT").wglConsulted = true ∧
    (getProcAddressWin wglSentinelState "glFooEXT").result =
      fallbackChain wglSentinelState "glFooEXT" ∧
    fallbackChain wglSentinelState "glFooEXT" = 4096 := by
  have h := wgl_sentinel_not_returned wglSentinelState "glFooEXT" (fun _ => 1)
    rfl rfl rfl (by decide)
  exact ⟨h.1, h.2.1, h.2.2, by decide⟩

/-- Helper: the embedded `IsLikelyExtensionName` detects exactly the names
having one of the recognised suffixes. -/
lemma isLikelyExtensionName_iff (name : String) :
    isLikelyExtensionName name = true ↔
      ∃ s ∈ kSuffixes, s.data <:+ name.data := by
  simp [isLikelyExtensionName, List.any_eq_true, List.isSuffixOf_iff_suffix]

/-- C9: on the EGL backend, the backend-provider step consults
`eglGetProcAddress` for every name when the driver advertised
`EGL_KHR_get_all_proc_addresses` or `EGL_KHR_client_get_all_proc_addresses`;
otherwise it consults it exactly for names ending in one of the recognised
vendor/standards suffixes, and for all other names the provider step returns
nothing and resolution continues down the fallback chain. -/
theorem egl_provider_policy (st : ResolverState) (name : String)
    (clientExt displayExt : Option String) (f : String → Nat)
    (hb : st.backend = .EGL)
    (hegl : st.eglGetProcAddress = some f)
    (hflag : st.eglGetAllProcAddresses =
      computeEglGetAllProcAddresses clientExt displayExt) :
    (computeEglGetAllProcAddresses clientExt displayExt = true →
       (eglProviderStep st name).2 = true) ∧
    (computeEglGetAllProcAddresses clientExt displayExt = false →
       ((eglProviderStep st name).2 = true ↔
          ∃ s ∈ kSuffixes, s.data <:+ name.data)) ∧
    (computeEglGetAllProcAddresses clientExt displayExt = false →
       (¬∃ s ∈ kSuffixes, s.data <:+ name.data) →
       st.userResolver = none →
       (resolveProcAddressLinux st name).eglConsulted = false ∧
       (resolveProcAddressLinux st name).result = 0 ∧
       (getProcAddressLinux st name).result = fallbackChain st name) := by
  refine ⟨?_, ?_, ?_⟩
  · intro h
    simp [eglProviderStep, hb, hegl, hflag, h]
  · intro h
    by_cases hlik : isLikelyExtensionName name = true
    · simp [eglProviderStep, hb, hegl, hflag, h, shouldUseEglGetProcAddressForName,
        hlik, (isLikelyExtensionName_iff name).mp hlik]
    · rw [Bool.not_eq_true] at hlik
      simp [eglProviderStep, hb, hegl, hflag, h, shouldUseEglGetProcAddressForName,
        hlik, ← isLikelyExtensionName_iff, hlik]
  · intro h hnolik huser
    have hlik : isLikelyExtensionName name = false := by
      rw [← Bool.not_eq_true, isLikelyExtensionName_iff]
      exact hnolik
    have hcons : eglProviderStep st name = (0, false) := by
      simp [eglProviderStep, hb, hegl, hflag, h, shouldUseEglGetProcAddressForName, hlik]
    refine ⟨?_, ?_, ?_⟩ <;>
      simp [resolveProcAddressLinux, getProcAddressLinux, huser, hcons, hb]

/-- Witness for C9: with the all-proc-addresses capability advertised the
core name "glBindBuffer" is consulted; without it, the suffixed name
"glFooEXT" is consulted while "glBindBuffer" is not, and resolution for
"glBindBuffer" continues into the fallback chain. -/
theorem egl_provider_policy_witness :
    (eglProviderStep eglAllState "glBindBuffer").2 = true ∧
    (eglProviderStep eglSuffixState "glFooEXT").2 = true ∧
    (resolveProcAddressLinux eglSuffixState "glBindBuffer").eglConsulted = false ∧
    (resolveProcAddressLinux eglSuffixState "glBindBuffer").result = 0 ∧
    (getProcAddressLinux eglSuffixState "glBindBuffer").result =
      fallbackChain eglSuffixState "glBindBuffer" := by
  have h1 := (egl_provider_policy eglAllState "glBindBuffer"
    (some "EGL_KHR_client_get_all_proc_addresses") none (fun _ => 7)
    rfl rfl rfl).1 (by decide)
  have h2 := ((egl_provider_policy eglSuffixState "glFooEXT"
    (some "EGL_EXT_client_extensions") none (fun _ => 0)
    rfl rfl rfl).2.1 (by decide)).mpr ⟨"EXT", by decide, "glFoo".data, by decide⟩
  have h3 := (egl_provider_policy eglSuffixState "glBindBuffer"
    (some "EGL_EXT_client_extensions") none (fun _ => 0)
    rfl rfl rfl).2.2 (by decide)
    (fun hcontra => by
      have hx := (isLikelyExtensionName_iff "glBindBuffer").mpr hcontra
      exact absurd hx (by decide))
    rfl
  exact ⟨h1, h2, h3.1, h3.2.1, h3.2.2⟩

end ProjectM
